import Mathlib

/-
Shallow embedding of the service layer of MelroseSaint/RepositoryGeneratorV2:
  - src/services/mockAiWorker.ts   (detectStack, generateFileTree)
  - src/services/aiService.ts      (getApiKey, generateFileTree, mockDetect, mockGenerate,
                                    generateGithubNodes)
  - src/services/githubService.ts  (parseGithubUrl, pushToGithub with processNode, and the
                                    flat-object-to-FileNode conversion loop of the
                                    generateFileTree variant shipped in that file)
JS strings are modelled as Lean String; JS string truthiness is the test against "";
optional array fields of the config are modelled as lists where the absent value behaves
exactly like the empty list (the source only ever tests them with
`!xs || xs.length === 0` and `xs?.includes(k)`).
-/

namespace RepoGen

/-- Embedding of JS `hay.startsWith(needle)` on character lists (helper for jsIncludes). -/
def charsHasPrefix : List Char → List Char → Bool
  | _, [] => true
  | [], _ :: _ => false
  | a :: as, b :: bs => a == b && charsHasPrefix as bs

/-- Embedding of JS substring search: needle occurs somewhere in hay. -/
def charsIncludes : List Char → List Char → Bool
  | [], needle => charsHasPrefix [] needle
  | a :: rest, needle => charsHasPrefix (a :: rest) needle || charsIncludes rest needle

/-- Embedding of JS `s.includes(t)`. -/
def jsIncludes (s t : String) : Bool := charsIncludes s.toList t.toList

/-- Embedding of JS `s.slice(0, n)` (code-unit vs character difference immaterial for the
inputs in scope). -/
def jsSlice (s : String) (n : Nat) : String := String.mk (s.toList.take n)

/-- Embedding of JS `s.replace(/\s+/g, "")`: drop every whitespace character. -/
def stripWs (s : String) : String := String.mk (s.toList.filter (fun ch => !ch.isWhitespace))

/-- Embedding of JS `s.toLowerCase()` on the character list (kernel-reducible, unlike the
position-recursive core implementation). -/
def jsToLower (s : String) : String := String.mk (s.toList.map Char.toLower)

/-- Embedding of JS `s.split(sep)` for a one-character separator, on character lists. -/
def splitOnChar (sep : Char) : List Char → List (List Char)
  | [] => [[]]
  | c :: rest =>
    let r := splitOnChar sep rest
    if c == sep then [] :: r
    else (c :: r.headI) :: r.tail

/-- Embedding of JS `path.split("/")`. -/
def jsSplitSlash (s : String) : List String := (splitOnChar (Char.ofNat 47) s.toList).map String.mk

/-- DetectionResult record from src/types as produced by the heuristics. -/
structure DetectionResult where
  language : String
  framework : String
  confidence : Nat
  suggestedProjectType : String
  detectedFiles : Nat
deriving DecidableEq, Repr

/-- RepoConfig record (fields read by the embedded services; src/types.ts itself is not in
the source tree, the field set is taken from every read site in the services and App). -/
structure RepoConfig where
  name : String
  description : String
  author : String
  language : String
  useTypeScript : Bool
  framework : String
  projectType : String
  packageManager : String
  includeDocker : Bool
  includeTests : Bool
  ciProvider : String
  githubWorkflows : List String
  githubTemplates : List String
  githubCommunity : List String
  githubCodeowners : Bool
  features : List String
  ideConfig : List String
deriving DecidableEq, Repr

namespace MockAiWorker

/-- Embedding of detectStack (src/services/mockAiWorker.ts lines 7-32), with the network
delay elided.  Three sequential overwriting rules: react/jsx, TypeScript upgrade,
django/flask/def. -/
def detectStack (input : String) : DetectionResult :=
  let lower := jsToLower input
  let r0 : DetectionResult := ⟨"JavaScript", "Node.js", 65, "Backend", 1⟩
  let r1 := if jsIncludes lower "react" || jsIncludes lower "jsx" then
      (⟨"JavaScript", "React", 92, "Frontend", 3⟩ : DetectionResult) else r0
  let r2 := if jsIncludes lower "interface " || jsIncludes lower "type " || jsIncludes lower ": string" then
      { r1 with language := "TypeScript" } else r1
  if jsIncludes lower "django" || jsIncludes lower "flask" || jsIncludes lower "def " then
    ⟨"Python", "Flask", 88, "Backend", 2⟩ else r2

end MockAiWorker

namespace AiService

/-- Embedding of mockDetect (src/services/aiService.ts lines 245-261).  Unlike the
mockAiWorker variant there is no django/flask/def rule, and the TypeScript upgrade is the
last rule applied. -/
def mockDetect (input : String) : DetectionResult :=
  let lower := jsToLower input
  let r0 : DetectionResult := ⟨"JavaScript", "Node.js", 65, "Backend", 1⟩
  let r1 := if jsIncludes lower "react" || jsIncludes lower "jsx" then
      (⟨"JavaScript", "React", 92, "Frontend", 3⟩ : DetectionResult) else r0
  if jsIncludes lower "interface " || jsIncludes lower "type " || jsIncludes lower ": string" then
    { r1 with language := "TypeScript" } else r1

end AiService

/-- FileNode from src/types as used by the services: a tagged variant of File and Folder.
Display-only metadata fields (`id`, `language`, `isNew`) are write-only in every embedded
function and are elided. -/
inductive FileNode where
  | file (name content : String)
  | folder (name : String) (children : List FileNode)

def FileNode.name : FileNode → String
  | .file n _ => n
  | .folder n _ => n

/-- Path join as written twice inside processNode (src/services/githubService.ts):
`path ? path + "/" + name : name`. -/
def pjoin (path n : String) : String := if path = "" then n else path ++ "/" ++ n

mutual
/-- Embedding of processNode (src/services/githubService.ts lines 172-198), restricted to
the tree-item (path, content) pair it records per File leaf.  The folder branch visits
each child with `pjoin path child.name`; the file branch records `pjoin path node.name`
(so the file name is joined a second time). -/
def flattenNode : FileNode → String → List (String × String)
  | .file n c, path => [(pjoin path n, c)]
  | .folder _ ch, path => flattenInto ch path

/-- The folder-branch loop of processNode: each child is visited with the child's own name
already joined onto the accumulated path. -/
def flattenInto : List FileNode → String → List (String × String)
  | [], _ => []
  | child :: rest, path => flattenNode child (pjoin path child.name) ++ flattenInto rest path
end

/-- Top-level loop of pushToGithub (lines 200-203): `processNode(node, "")` for each root
node, collecting tree items in depth-first order. -/
def flattenForest (files : List FileNode) : List (String × String) :=
  files.flatMap (fun n => flattenNode n "")

mutual
/-- Whether the tree rooted at a node contains, at any depth, a node with the given name. -/
def nodeHasName : String → FileNode → Bool
  | t, .file n _ => n == t
  | t, .folder n ch => n == t || forestHasName t ch

/-- Whether a forest contains, at any depth, a node with the given name. -/
def forestHasName : String → List FileNode → Bool
  | _, [] => false
  | t, n :: rest => nodeHasName t n || forestHasName t rest
end

/-- JS `currentLevel.find(n => n.name === part && n.type === FOLDER)` succeeds. -/
def hasFolder (p : String) : List FileNode → Bool
  | [] => false
  | FileNode.folder n _ :: ns => n == p || hasFolder p ns
  | _ :: ns => hasFolder p ns

/-- Mutating `currentLevel = folder.children` and inserting deeper, expressed as replacing
the first folder named `p` by the folder with transformed children. -/
def updateFirstFolder (p : String) (f : List FileNode → List FileNode) : List FileNode → List FileNode
  | [] => []
  | FileNode.folder n ch :: ns =>
      if n == p then FileNode.folder n (f ch) :: ns
      else FileNode.folder n ch :: updateFirstFolder p f ns
  | x :: ns => x :: updateFirstFolder p f ns

/-- Embedding of the flat-object-to-FileNode conversion loop of the generateFileTree
variant in src/services/githubService.ts (lines 432-464): walk the split path, reusing
the first existing Folder node with the segment name at the current level or appending a
fresh one, and append a File node for the last segment. -/
def insertPath : List String → String → List FileNode → List FileNode
  | [], _, lvl => lvl
  | [p], c, lvl => lvl ++ [FileNode.file p c]
  | p :: q :: ps, c, lvl =>
      if hasFolder p lvl then updateFirstFolder p (insertPath (q :: ps) c) lvl
      else lvl ++ [FileNode.folder p (insertPath (q :: ps) c [])]

/-- The whole conversion loop over `Object.entries(files)`: each path is split on "/" and
inserted in order. -/
def treeFromFlat (entries : List (String × String)) : List FileNode :=
  entries.foldl (fun acc e => insertPath (jsSplitSlash e.1) e.2 acc) []

/-- Dockerfile template shared by mockAiWorker and aiService. -/
def dockerfileContent : String :=
  "FROM node:18-alpine\nWORKDIR /app\nCOPY . .\nRUN npm install\nCMD [\"npm\", \"start\"]"

/-- ci.yml workflow template shared by mockAiWorker and aiService. -/
def ciYmlContent : String :=
  "name: CI\non: [push]\njobs:\n  build:\n    runs-on: ubuntu-latest\n    steps:\n      - uses: actions/checkout@v3\n      - run: npm ci\n      - run: npm test"

namespace AiService

/-- package.json content of mockGenerate (aiService.ts lines 267-274): JSON.stringify of
the fixed-shape object, two-space indented; string escaping of the interpolated fields is
elided (no input in scope needs it). -/
def mockPkgJson (c : RepoConfig) : String :=
  "\x7b\n  \"name\": \"" ++ c.name ++ "\",\n  \"version\": \"0.1.0\",\n  \"description\": \""
    ++ c.description
    ++ "\",\n  \"scripts\": \x7b\n    \"dev\": \"vite\",\n    \"build\": \"vite build\"\n  \x7d,\n  \"dependencies\": \x7b\n    \""
    ++ c.framework.toLower ++ "\": \"^latest\"\n  \x7d\n\x7d"

/-- README content of mockGenerate (aiService.ts lines 277-280). -/
def mockReadme (c : RepoConfig) : String :=
  "# " ++ c.name ++ "\n\n" ++ c.description ++ "\n\nGenerated by RepoGen (Offline Mode)."

/-- Embedding of generateGithubNodes (src/services/aiService.ts lines 301-344).  Returns
none when the CI provider is not github, the three selector collections are empty and the
CODEOWNERS flag is off; otherwise assembles the .github folder.  Note: this variant emits
no CODEOWNERS file even when the flag is set. -/
def generateGithubNodes (c : RepoConfig) : Option FileNode :=
  if c.ciProvider ≠ "github" ∧ c.githubWorkflows = [] ∧ c.githubTemplates = [] ∧
      c.githubCommunity = [] ∧ c.githubCodeowners = false then
    none
  else
    let workflowsChildren : List FileNode :=
      if c.ciProvider = "github" ∨ "ci" ∈ c.githubWorkflows then
        [FileNode.file "ci.yml" ciYmlContent]
      else []
    let githubChildren : List FileNode :=
      (if workflowsChildren.isEmpty = true then [] else [FileNode.folder "workflows" workflowsChildren])
    let issueTemplates : List FileNode :=
      if "bug_report" ∈ c.githubTemplates then
        [FileNode.file "bug_report.md" "---\nname: Bug report\nabout: Create a report to help us improve\n---\n"]
      else []
    let githubChildren := githubChildren ++
      (if issueTemplates.isEmpty = true then [] else [FileNode.folder "ISSUE_TEMPLATE" issueTemplates])
    let githubChildren := githubChildren ++
      (if "contributing" ∈ c.githubCommunity then [FileNode.file "CONTRIBUTING.md" "# Contributing"] else [])
    some (FileNode.folder ".github" githubChildren)

/-- Embedding of mockGenerate (src/services/aiService.ts lines 263-299): package.json,
README.md, the optional .github folder, then a src folder with one entry file whose
extension follows the language/framework decision and whose content prefixes the raw
input with a banner. -/
def mockGenerate (c : RepoConfig) (rawInput : String) : List FileNode :=
  let base : List FileNode :=
    [FileNode.file "package.json" (mockPkgJson c),
     FileNode.file "README.md" (mockReadme c)]
  let withGh : List FileNode :=
    match generateGithubNodes c with
    | some gh => base ++ [gh]
    | none => base
  let ext := if c.language = "TypeScript" then "ts" else "js"
  let reactExt := if c.language = "TypeScript" then "tsx" else "jsx"
  withGh ++ [FileNode.folder "src"
    [FileNode.file ("index." ++ (if c.framework = "React" then reactExt else ext))
      ("// Offline Mode Entry\n\n" ++ rawInput)]]

/-- Outcome of the guarded AI interaction inside generateFileTree: the generateContent
promise rejects (timeout via Promise.race, network error, thrown exception), or it
resolves with text whose fence-stripped form fails JSON.parse, or it resolves with a
parsed flat path-to-content object. -/
inductive AiOutcome where
  | failure
  | malformed
  | parsed (files : List (String × String))

/-- Embedding of the success path of generateFileTree (aiService.ts lines 189-235): add
one File node per parsed entry, append the deterministic .github nodes, append a
Dockerfile when requested and missing, and for Frontend projects without a src node move
the first index entry file into a fresh src folder.  The `f.name.match(/index\.(ts|js|tsx|jsx)/)`
test is substring containment of "index.ts" or "index.js" (the tsx/jsx alternatives are
subsumed by their prefixes). -/
def buildFromAiFiles (c : RepoConfig) (files : List (String × String)) : List FileNode :=
  let root0 : List FileNode := files.map (fun e => FileNode.file e.1 e.2)
  let root1 : List FileNode :=
    match generateGithubNodes c with
    | some gh => root0 ++ [gh]
    | none => root0
  let root2 : List FileNode :=
    if c.includeDocker = true ∧ root1.any (fun n => n.name == "Dockerfile") = false then
      root1 ++ [FileNode.file "Dockerfile" dockerfileContent]
    else root1
  if c.projectType = "Frontend" ∧ root2.any (fun n => n.name == "src") = false then
    match root2.findIdx? (fun n => jsIncludes n.name "index.ts" || jsIncludes n.name "index.js") with
    | some i =>
        match root2[i]? with
        | some entry => root2.eraseIdx i ++ [FileNode.folder "src" [entry]]
        | none => root2
    | none => root2
  else root2

/-- Embedding of generateFileTree (src/services/aiService.ts lines 105-241).  `hasKey`
models `getModel()` returning null or a model; `outcome` models everything that can
happen to the guarded AI call.  Both the no-key branch and the catch branch (line 237)
return the deterministic mockGenerate result; the function always resolves. -/
def generateFileTree (hasKey : Bool) (outcome : AiOutcome) (c : RepoConfig) (rawInput : String) : List FileNode :=
  if hasKey = false then mockGenerate c rawInput
  else
    match outcome with
    | .failure => mockGenerate c rawInput
    | .malformed => mockGenerate c rawInput
    | .parsed files => buildFromAiFiles c files

/-- Embedding of getApiKey (src/services/aiService.ts lines 22-48).  The three key
sources in source order: the runtime key (user input persisted to localStorage), the
process.env build-time key, the import.meta.env build-time key; JS truthiness of a string
is the test against "".  The absent case of either environment variable is the empty
string. -/
def getApiKey (runtimeApiKey envKey viteKey : String) : String :=
  if runtimeApiKey ≠ "" then runtimeApiKey
  else if envKey ≠ "" then envKey
  else if viteKey ≠ "" then viteKey
  else ""

end AiService

namespace MockAiWorker

/-- package.json content of mockAiWorker generateFileTree (lines 41-60): JSON.stringify of
the fixed-shape object, two-space indented; escaping of interpolated fields elided. -/
def workerPkgJson (c : RepoConfig) : String :=
  "\x7b\n  \"name\": \"" ++ c.name ++ "\",\n  \"version\": \"0.1.0\",\n  \"description\": \""
    ++ c.description
    ++ "\",\n  \"scripts\": \x7b\n    \"dev\": \"vite\",\n    \"build\": \"vite build\",\n    \"lint\": \"eslint .\"\n  \x7d,\n  \"dependencies\": \x7b\n    \""
    ++ c.framework.toLower ++ "\": \"^18.2.0\"\n  \x7d\n\x7d"

/-- README content of mockAiWorker generateFileTree (lines 62-69). -/
def workerReadme (c : RepoConfig) : String :=
  "# " ++ c.name ++ "\n\n" ++ c.description ++ "\n\n## Getting Started\n\n```bash\n"
    ++ c.packageManager ++ " install\n" ++ c.packageManager ++ " run dev\n```"

/-- release.yml workflow template (lines 86-91). -/
def releaseYmlContent : String :=
  "name: Release\non:\n  push:\n    tags:\n      - \"v*\"\njobs:\n  release:\n    runs-on: ubuntu-latest\n    steps:\n      - uses: actions/checkout@v3\n      - name: Create Release\n        uses: softprops/action-gh-release@v1"

/-- codeql.yml workflow template (lines 92-97). -/
def codeqlYmlContent : String :=
  "name: \"CodeQL\"\non:\n  push:\n    branches: [ \"main\" ]\n  pull_request:\n    branches: [ \"main\" ]\njobs:\n  analyze:\n    name: Analyze\n    runs-on: ubuntu-latest\n    steps:\n    - name: Checkout repository\n      uses: actions/checkout@v3\n    - name: Initialize CodeQL\n      uses: github/codeql-action/init@v2\n    - name: Perform CodeQL Analysis\n      uses: github/codeql-action/analyze@v2"

/-- stale.yml workflow template (lines 98-103). -/
def staleYmlContent : String :=
  "name: \"Close stale issues\"\non:\n  schedule:\n  - cron: \"30 1 * * *\"\njobs:\n  stale:\n    runs-on: ubuntu-latest\n    steps:\n    - uses: actions/stale@v8\n      with:\n        stale-issue-message: \"This issue is stale because it has been open 30 days with no activity.\"\n        days-before-stale: 30\n        days-before-close: 5"

/-- dependabot.yml template (lines 112-117). -/
def dependabotContent : String :=
  "version: 2\nupdates:\n  - package-ecosystem: \"npm\"\n    directory: \"/\"\n    schedule:\n      interval: \"weekly\""

/-- bug_report.md template (lines 121-126). -/
def bugReportContent : String :=
  "---\nname: Bug report\nabout: Create a report to help us improve\ntitle: \"\"\nlabels: \"\"\nassignees: \"\"\n---\n\n**Describe the bug**\nA clear and concise description of what the bug is."

/-- feature_request.md template (lines 127-132). -/
def featureRequestContent : String :=
  "---\nname: Feature request\nabout: Suggest an idea for this project\ntitle: \"\"\nlabels: \"\"\nassignees: \"\"\n---\n\n**Is your feature request related to a problem? Please describe.**\nA clear and concise description of what the problem is."

/-- pull_request_template.md template (lines 139-144). -/
def prTemplateContent : String :=
  "## Description\n\nPlease include a summary of the change and which issue is fixed.\n\n## Type of change\n\n- [ ] Bug fix\n- [ ] New feature\n- [ ] Breaking change"

/-- CONTRIBUTING.md template (lines 147-152). -/
def workerContributing (c : RepoConfig) : String :=
  "# Contributing to " ++ c.name ++ "\n\nThank you for considering contributing! Please read our guidelines before submitting a PR."

/-- CODE_OF_CONDUCT.md template (lines 153-158). -/
def cocContent : String :=
  "# Contributor Covenant Code of Conduct\n\n## Our Pledge\n\nWe pledge to make participation in our project a harassment-free experience for everyone."

/-- SECURITY.md template (lines 159-164). -/
def securityContent : String :=
  "# Security Policy\n\n## Supported Versions\n\n| Version | Supported |\n| ------- | ------------------ |\n| 1.0.x   | :white_check_mark: |\n\n## Reporting a Vulnerability\n\nPlease email security@example.com."

/-- SUPPORT.md template (lines 165-170). -/
def supportContent : String :=
  "# Support\n\nIf you need help, please check the discussions tab or open an issue."

/-- App.test template (lines 202-211). -/
def testContent : String :=
  "test(\x27renders correctly\x27, () => \x7b\n  expect(true).toBe(true);\n\x7d);"

/-- Embedding of generateFileTree (src/services/mockAiWorker.ts lines 37-221): config
files, optional Dockerfile, the .github assembly (pushed only when it has children), then
the src folder with the entry file (and a test file when requested). -/
def generateFileTree (c : RepoConfig) (rawInput : String) : List FileNode :=
  let root0 : List FileNode :=
    [FileNode.file "package.json" (workerPkgJson c),
     FileNode.file "README.md" (workerReadme c)]
  let root1 := root0 ++ (if c.includeDocker = true then [FileNode.file "Dockerfile" dockerfileContent] else [])
  let workflowsChildren : List FileNode :=
    (if c.ciProvider = "github" ∨ "ci" ∈ c.githubWorkflows then [FileNode.file "ci.yml" ciYmlContent] else [])
    ++ (if "release" ∈ c.githubWorkflows then [FileNode.file "release.yml" releaseYmlContent] else [])
    ++ (if "codeql" ∈ c.githubWorkflows then [FileNode.file "codeql.yml" codeqlYmlContent] else [])
    ++ (if "stale" ∈ c.githubWorkflows then [FileNode.file "stale.yml" staleYmlContent] else [])
  let githubChildren : List FileNode :=
    (if workflowsChildren.isEmpty = true then [] else [FileNode.folder "workflows" workflowsChildren])
    ++ (if "dependabot" ∈ c.githubWorkflows then [FileNode.file "dependabot.yml" dependabotContent] else [])
  let issueTemplates : List FileNode :=
    (if "bug_report" ∈ c.githubTemplates then [FileNode.file "bug_report.md" bugReportContent] else [])
    ++ (if "feature_request" ∈ c.githubTemplates then [FileNode.file "feature_request.md" featureRequestContent] else [])
  let githubChildren := githubChildren
    ++ (if issueTemplates.isEmpty = true then [] else [FileNode.folder "ISSUE_TEMPLATE" issueTemplates])
    ++ (if "pull_request" ∈ c.githubTemplates then [FileNode.file "pull_request_template.md" prTemplateContent] else [])
    ++ (if "contributing" ∈ c.githubCommunity then [FileNode.file "CONTRIBUTING.md" (workerContributing c)] else [])
    ++ (if "code_of_conduct" ∈ c.githubCommunity then [FileNode.file "CODE_OF_CONDUCT.md" cocContent] else [])
    ++ (if "security" ∈ c.githubCommunity then [FileNode.file "SECURITY.md" securityContent] else [])
    ++ (if "support" ∈ c.githubCommunity then [FileNode.file "SUPPORT.md" supportContent] else [])
    ++ (if c.githubCodeowners = true then [FileNode.file "CODEOWNERS" ("* @" ++ stripWs c.author)] else [])
  let root2 := root1 ++ (if githubChildren.isEmpty = true then [] else [FileNode.folder ".github" githubChildren])
  let ext := if c.language = "TypeScript" then "ts" else "js"
  let reactExt := if c.language = "TypeScript" then "tsx" else "jsx"
  let srcChildren : List FileNode :=
    [FileNode.file ("index." ++ (if c.framework = "React" then reactExt else ext))
       ("// RepoGen: Auto-generated entry point\n\n" ++ jsSlice rawInput 200 ++ "...\n\n// ... (rest of your code)")]
    ++ (if c.includeTests = true then [FileNode.file ("App.test." ++ ext) testContent] else [])
  root2 ++ [FileNode.folder "src" srcChildren]

end MockAiWorker

namespace GithubService

/-- Embedding of parseGithubUrl (src/services/githubService.ts lines 10-21).  The WHATWG
`new URL` constructor is a browser built-in outside the repository; it is abstracted as a
function returning the parsed pathname, or none when the constructor throws (the caught
branch).  `filter(Boolean)` keeps the non-empty segments. -/
def parseGithubUrl (urlPathname : String → Option String) (url : String) : Option (String × String) :=
  match urlPathname url with
  | none => none
  | some pathname =>
    match (jsSplitSlash pathname).filter (fun s => s != "") with
    | p0 :: p1 :: _ => some (p0, p1)
    | _ => none

/-- The six kinds of hosting-API fetches issued by pushToGithub, in source order. -/
inductive CallKind where
  | refRead | commitRead | blobCreate | treeCreate | commitCreate | refUpdate
deriving DecidableEq, Repr

/-- A resolved mock HTTP response: its ok flag and the sha field of its JSON body (the
only response data pushToGithub threads between steps). -/
structure MockResponse where
  ok : Bool
  sha : String
deriving DecidableEq, Repr

/-- The mocked hosting API: the result of the n-th fetch issued (0-indexed in issue
order).  `Except.error` models a rejected fetch (network failure or thrown exception),
`Except.ok` a resolved HTTP response. -/
abbrev Oracle := Nat → Except Unit MockResponse

/-- The blob-creation phase of pushToGithub: one blob fetch per File leaf, visited in
processNode depth-first order; a rejected fetch propagates and aborts.  Resolved non-ok
responses are not checked.  Returns the extended trace and whether the phase completed. -/
def pushBlobs (o : Oracle) : List (String × String) → List CallKind → List CallKind × Bool
  | [], tr => (tr, true)
  | _ :: rest, tr =>
    match o tr.length with
    | .error _ => (tr ++ [CallKind.blobCreate], false)
    | .ok _ => pushBlobs o rest (tr ++ [CallKind.blobCreate])

/-- Embedding of pushToGithub (src/services/githubService.ts lines 152-236) as a trace
machine over the mocked API: returns the sequence of fetches issued and whether the
promise resolved.  The HTTP ok flag is checked only on the ref-read step (line 160); on
every later step only a rejected fetch aborts. -/
def pushToGithub (o : Oracle) (files : List FileNode) : List CallKind × Bool :=
  match o 0 with
  | .error _ => ([CallKind.refRead], false)
  | .ok r =>
    if r.ok = false then ([CallKind.refRead], false)
    else
      match o 1 with
      | .error _ => ([CallKind.refRead, CallKind.commitRead], false)
      | .ok _ =>
        match pushBlobs o (flattenForest files) [CallKind.refRead, CallKind.commitRead] with
        | (tr, false) => (tr, false)
        | (tr, true) =>
          match o tr.length with
          | .error _ => (tr ++ [CallKind.treeCreate], false)
          | .ok _ =>
            match o (tr.length + 1) with
            | .error _ => (tr ++ [CallKind.treeCreate, CallKind.commitCreate], false)
            | .ok _ =>
              match o (tr.length + 2) with
              | .error _ => (tr ++ [CallKind.treeCreate, CallKind.commitCreate, CallKind.refUpdate], false)
              | .ok _ => (tr ++ [CallKind.treeCreate, CallKind.commitCreate, CallKind.refUpdate], true)

/-- The full expected fetch sequence for a push of the given forest. -/
def fullSequence (files : List FileNode) : List CallKind :=
  [CallKind.refRead, CallKind.commitRead]
    ++ List.replicate (flattenForest files).length CallKind.blobCreate
    ++ [CallKind.treeCreate, CallKind.commitCreate, CallKind.refUpdate]

end GithubService

/-- Concrete configuration of the C7 scenario: demo-app, TypeScript, React, Frontend, no
Docker, no tests, CI provider not github, all GitHub selector collections empty, no
CODEOWNERS. -/
def plainConfig : RepoConfig :=
  ⟨"demo-app", "A demo", "Jane Doe", "TypeScript", true, "React", "Frontend", "npm",
   false, false, "none", [], [], [], false, [], []⟩

/-- plainConfig with only the CODEOWNERS flag switched on. -/
def codeownersConfig : RepoConfig :=
  { plainConfig with githubCodeowners := true }

/-- Mocked hosting API where every fetch resolves, but the fourth one (the tree-create
call when pushing a single file) resolves with a non-ok HTTP response. -/
def treeHttpFailOracle : GithubService.Oracle :=
  fun n => if n = 3 then Except.ok ⟨false, ""⟩ else Except.ok ⟨true, "sha0"⟩

/-- Mocked hosting API where the fourth fetch (the tree-create call when pushing a single
file) rejects and every other fetch resolves ok. -/
def treeRejectOracle : GithubService.Oracle :=
  fun n => if n = 3 then Except.error () else Except.ok ⟨true, "sha0"⟩

/-- Concrete stand-in for the browser URL parser, defined on one GitHub repository URL. -/
def ghPathname : String → Option String :=
  fun u => if u = "https://github.com/facebook/react" then some "/facebook/react" else none

/-- C1: evaluation of the cited code at the failing input.  Converting the one-entry
mapping a/b to c with the flat-to-tree loop and flattening back with processNode yields
the pair (b/b, c): the folder segment a is dropped and the file name b is joined twice,
so the round trip does not reproduce the mapping. -/
theorem C1_roundtrip_eval :
    flattenForest (treeFromFlat [("a/b", "c")]) = [("b/b", "c")]
  ∧ flattenForest (treeFromFlat [("a/b", "c")]) ≠ [("a/b", "c")] :=
  ⟨rfl, by decide⟩

/-- C3 counterexample: the input "flask react" contains both keywords (lower-cased), yet
the aiService mockDetect fallback (cited by the claim) classifies it as Frontend/React,
because it has no django/flask/def rule at all. -/
theorem C3_counterexample :
    jsIncludes (jsToLower "flask react") "flask" = true
  ∧ jsIncludes (jsToLower "flask react") "react" = true
  ∧ (AiService.mockDetect "flask react").framework = "React"
  ∧ (AiService.mockDetect "flask react").suggestedProjectType = "Frontend" := by
  decide

/-- C3 amended: for input containing both flask and react (lower-cased), the
mockAiWorker detectStack heuristic classifies it as Backend/Flask (its backend rule runs
last and overwrites the react rule), while the aiService mockDetect fallback that the app
actually calls has no backend-keyword rule and classifies the same input as
Frontend/React. -/
theorem C3_amended (s : String)
    (hf : jsIncludes (jsToLower s) "flask" = true)
    (hr : jsIncludes (jsToLower s) "react" = true) :
    MockAiWorker.detectStack s = ⟨"Python", "Flask", 88, "Backend", 2⟩
  ∧ (AiService.mockDetect s).framework = "React"
  ∧ (AiService.mockDetect s).suggestedProjectType = "Frontend" := by
  refine ⟨?_, ?_, ?_⟩
  · simp [MockAiWorker.detectStack, hf]
  · simp only [AiService.mockDetect, hr, Bool.true_or, if_true]
    split <;> rfl
  · simp only [AiService.mockDetect, hr, Bool.true_or, if_true]
    split <;> rfl

/-- C3 amended, witnessed at the concrete input "flask react". -/
theorem C3_amended_witness :
    MockAiWorker.detectStack "flask react" = ⟨"Python", "Flask", 88, "Backend", 2⟩
  ∧ (AiService.mockDetect "flask react").framework = "React"
  ∧ (AiService.mockDetect "flask react").suggestedProjectType = "Frontend" :=
  C3_amended "flask react" (by decide) (by decide)

/-- C4: whenever the guarded AI call fails in any way (the promise rejects by timeout,
network error or thrown exception, or the response text fails JSON.parse),
generateFileTree returns exactly the deterministic mockGenerate result for the same
config and raw input. -/
theorem C4_generateFileTree_fallback (hasKey : Bool) (outcome : AiService.AiOutcome)
    (c : RepoConfig) (raw : String)
    (h : outcome = AiService.AiOutcome.failure ∨ outcome = AiService.AiOutcome.malformed) :
    AiService.generateFileTree hasKey outcome c raw = AiService.mockGenerate c raw := by
  rcases h with h | h <;> subst h <;> cases hasKey <;> simp [AiService.generateFileTree]

/-- C4, witnessed at a concrete failing outcome and config. -/
theorem C4_generateFileTree_fallback_witness :
    AiService.generateFileTree true AiService.AiOutcome.failure plainConfig "const x = 1;"
      = AiService.mockGenerate plainConfig "const x = 1;" :=
  C4_generateFileTree_fallback true AiService.AiOutcome.failure plainConfig "const x = 1;"
    (Or.inl rfl)

/-- C5 counterexample: the input "interface Apple flask" contains "interface " yet the
mockAiWorker detectStack heuristic (cited by the claim) reports language Python, because
its django/flask/def rule runs after the TypeScript upgrade and overwrites the whole
record. -/
theorem C5_counterexample :
    jsIncludes (jsToLower "interface Apple flask") "interface " = true
  ∧ (MockAiWorker.detectStack "interface Apple flask").language = "Python"
  ∧ (MockAiWorker.detectStack "interface Apple flask").language ≠ "TypeScript" := by
  decide

/-- C5 amended: for input containing "interface " (lower-cased), the aiService mockDetect
fallback always reports language TypeScript whatever primary rule fired (its upgrade rule
is last), while the mockAiWorker variant does so only when no backend keyword
(django/flask/def ) is present, since its backend rule runs after the upgrade. -/
theorem C5_amended (s : String)
    (h : jsIncludes (jsToLower s) "interface " = true) :
    (AiService.mockDetect s).language = "TypeScript"
  ∧ (jsIncludes (jsToLower s) "django" = false → jsIncludes (jsToLower s) "flask" = false →
      jsIncludes (jsToLower s) "def " = false →
      (MockAiWorker.detectStack s).language = "TypeScript") := by
  constructor
  · simp only [AiService.mockDetect, h, Bool.true_or, if_true]
  · intro hd hf hdef
    simp [MockAiWorker.detectStack, h, hd, hf, hdef]

/-- C5 amended, witnessed at the concrete input "interface Apple". -/
theorem C5_amended_witness :
    (AiService.mockDetect "interface Apple").language = "TypeScript"
  ∧ (MockAiWorker.detectStack "interface Apple").language = "TypeScript" := by
  obtain ⟨h1, h2⟩ := C5_amended "interface Apple" (by decide)
  exact ⟨h1, h2 (by decide) (by decide) (by decide)⟩

/-- C8: getApiKey precedence over the three key sources: a non-empty runtime (persisted
user) key always wins; with it empty the process.env key is returned when non-empty, then
the import.meta.env key; with all three empty the result is the empty string. -/
theorem C8_getApiKey_precedence (r e v : String) :
    (r ≠ "" → AiService.getApiKey r e v = r)
  ∧ (r = "" → e ≠ "" → AiService.getApiKey r e v = e)
  ∧ (r = "" → e = "" → v ≠ "" → AiService.getApiKey r e v = v)
  ∧ (r = "" → e = "" → v = "" → AiService.getApiKey r e v = "") := by
  refine ⟨?_, ?_, ?_, ?_⟩ <;> intros <;> simp_all [AiService.getApiKey]

/-- C8, witnessed: a persisted user key wins over both environment keys. -/
theorem C8_getApiKey_precedence_witness :
    AiService.getApiKey "user-key" "env-key" "vite-key" = "user-key" :=
  (C8_getApiKey_precedence "user-key" "env-key" "vite-key").1 (by decide)

/-- C10: parseGithubUrl is total and matches its case analysis: null when the URL parser
throws (none); otherwise the first two non-empty slash-separated pathname segments when
there are at least two, and null when there are fewer. -/
theorem C10_parseGithubUrl_spec (urlPathname : String → Option String) (url : String) :
    (urlPathname url = none → GithubService.parseGithubUrl urlPathname url = none)
  ∧ (∀ pathname, urlPathname url = some pathname →
      (∀ p0 p1 rest, (jsSplitSlash pathname).filter (fun s => s != "") = p0 :: p1 :: rest →
        GithubService.parseGithubUrl urlPathname url = some (p0, p1))
      ∧ (((jsSplitSlash pathname).filter (fun s => s != "")).length < 2 →
        GithubService.parseGithubUrl urlPathname url = none)) := by
  constructor
  · intro h
    simp [GithubService.parseGithubUrl, h]
  · intro pathname h
    constructor
    · intro p0 p1 rest hparts
      simp [GithubService.parseGithubUrl, h, hparts]
    · intro hlen
      simp only [GithubService.parseGithubUrl, h]
      rcases hparts : (jsSplitSlash pathname).filter (fun s => s != "") with _ | ⟨p0, _ | ⟨p1, rest⟩⟩
      · rfl
      · rfl
      · exfalso
        rw [hparts] at hlen
        simp only [List.length_cons] at hlen
        omega

/-- C10, witnessed on a concrete GitHub URL whose pathname has two segments. -/
theorem C10_parseGithubUrl_spec_witness :
    GithubService.parseGithubUrl ghPathname "https://github.com/facebook/react"
      = some ("facebook", "react") := by
  obtain ⟨_, h2⟩ := C10_parseGithubUrl_spec ghPathname "https://github.com/facebook/react"
  exact (h2 "/facebook/react" rfl).1 "facebook" "react" [] (by decide)

/-- C6: with a CI provider other than github, all three GitHub selector collections empty
and the CODEOWNERS flag off, neither fallback generator emits any node named .github
anywhere in its output tree. -/
theorem C6_no_github_node (c : RepoConfig) (raw : String)
    (h1 : c.ciProvider ≠ "github") (h2 : c.githubWorkflows = [])
    (h3 : c.githubTemplates = []) (h4 : c.githubCommunity = [])
    (h5 : c.githubCodeowners = false) :
    forestHasName ".github" (AiService.mockGenerate c raw) = false
  ∧ forestHasName ".github" (MockAiWorker.generateFileTree c raw) = false := by
  constructor
  · by_cases hF : c.framework = "React" <;> by_cases hL : c.language = "TypeScript" <;>
      simp [AiService.mockGenerate, AiService.generateGithubNodes, h1, h2, h3, h4, h5,
        hF, hL, forestHasName, nodeHasName]
  · cases hD : c.includeDocker <;> cases hT : c.includeTests <;>
      by_cases hF : c.framework = "React" <;> by_cases hL : c.language = "TypeScript" <;>
      simp [MockAiWorker.generateFileTree, h1, h2, h3, h4, h5, hD, hT, hF, hL,
        forestHasName, nodeHasName]

/-- C6, witnessed at the concrete plainConfig. -/
theorem C6_no_github_node_witness :
    forestHasName ".github" (AiService.mockGenerate plainConfig "x") = false
  ∧ forestHasName ".github" (MockAiWorker.generateFileTree plainConfig "x") = false :=
  C6_no_github_node plainConfig "x" (by decide) rfl rfl rfl rfl

/-- C7: on the demo-app config (TypeScript, React, no Docker, no tests, no GitHub
selectors, CI provider not github) and raw input "const x = 1;", each fallback generator
produces exactly package.json, README.md and a src folder holding index.tsx whose content
wraps the raw input; no .github node and no Dockerfile appear anywhere. -/
theorem C7_demo_scenario :
    AiService.mockGenerate plainConfig "const x = 1;" =
      [FileNode.file "package.json" (AiService.mockPkgJson plainConfig),
       FileNode.file "README.md" (AiService.mockReadme plainConfig),
       FileNode.folder "src" [FileNode.file "index.tsx" "// Offline Mode Entry\n\nconst x = 1;"]]
  ∧ jsIncludes "// Offline Mode Entry\n\nconst x = 1;" "const x = 1;" = true
  ∧ forestHasName ".github" (AiService.mockGenerate plainConfig "const x = 1;") = false
  ∧ forestHasName "Dockerfile" (AiService.mockGenerate plainConfig "const x = 1;") = false
  ∧ MockAiWorker.generateFileTree plainConfig "const x = 1;" =
      [FileNode.file "package.json" (MockAiWorker.workerPkgJson plainConfig),
       FileNode.file "README.md" (MockAiWorker.workerReadme plainConfig),
       FileNode.folder "src" [FileNode.file "index.tsx"
         "// RepoGen: Auto-generated entry point\n\nconst x = 1;...\n\n// ... (rest of your code)"]]
  ∧ jsIncludes "// RepoGen: Auto-generated entry point\n\nconst x = 1;...\n\n// ... (rest of your code)" "const x = 1;" = true
  ∧ forestHasName ".github" (MockAiWorker.generateFileTree plainConfig "const x = 1;") = false
  ∧ forestHasName "Dockerfile" (MockAiWorker.generateFileTree plainConfig "const x = 1;") = false := by
  refine ⟨rfl, by decide, rfl, rfl, rfl, by decide, rfl, rfl⟩

/-- C9: with a CI provider other than github, the three selector collections empty but
the CODEOWNERS flag on, generateGithubNodes returns a .github Folder with an empty
children sequence (no CODEOWNERS file), and the mockGenerate tree therefore contains an
empty .github folder. -/
theorem C9_codeowners_empty_github (c : RepoConfig) (raw : String)
    (h1 : c.ciProvider ≠ "github") (h2 : c.githubWorkflows = [])
    (h3 : c.githubTemplates = []) (h4 : c.githubCommunity = [])
    (h5 : c.githubCodeowners = true) :
    AiService.generateGithubNodes c = some (FileNode.folder ".github" [])
  ∧ FileNode.folder ".github" [] ∈ AiService.mockGenerate c raw := by
  have hgate : AiService.generateGithubNodes c = some (FileNode.folder ".github" []) := by
    simp [AiService.generateGithubNodes, h1, h2, h3, h4, h5]
  refine ⟨hgate, ?_⟩
  simp [AiService.mockGenerate, hgate]

/-- C9, witnessed at the concrete codeownersConfig. -/
theorem C9_codeowners_empty_github_witness :
    AiService.generateGithubNodes codeownersConfig = some (FileNode.folder ".github" [])
  ∧ FileNode.folder ".github" [] ∈ AiService.mockGenerate codeownersConfig "x" :=
  C9_codeowners_empty_github codeownersConfig "x" (by decide) rfl rfl rfl rfl

namespace GithubService

/-- The pushBlobs phase always appends k blob-create calls for some k bounded by the item
count, and exactly the item count when it completes. -/
theorem pushBlobs_partial (o : Oracle) (items : List (String × String)) (tr : List CallKind) :
    ∃ k, k ≤ items.length
      ∧ (pushBlobs o items tr).1 = tr ++ List.replicate k CallKind.blobCreate
      ∧ ((pushBlobs o items tr).2 = true → k = items.length) := by
  induction items generalizing tr with
  | nil =>
    exact ⟨0, by simp [pushBlobs]⟩
  | cons a rest ih =>
    rcases h : o tr.length with e | r
    · refine ⟨1, by simp, ?_, ?_⟩
      · simp [pushBlobs, h]
      · simp [pushBlobs, h]
    · obtain ⟨k, hk, htr, hs⟩ := ih (tr ++ [CallKind.blobCreate])
      refine ⟨k + 1, by simp only [List.length_cons]; omega, ?_, ?_⟩
      · simp only [pushBlobs, h]
        rw [htr]
        simp [List.replicate_succ]
      · intro hb
        simp only [pushBlobs, h] at hb
        have hkr := hs hb
        simp [List.length_cons, hkr]

/-- When every fetch of the blob phase resolves, pushBlobs completes with one blob-create
call per item. -/
theorem pushBlobs_complete (o : Oracle) (items : List (String × String)) (tr : List CallKind)
    (h : ∀ i, tr.length ≤ i → i < tr.length + items.length → ∃ r, o i = Except.ok r) :
    pushBlobs o items tr = (tr ++ List.replicate items.length CallKind.blobCreate, true) := by
  induction items generalizing tr with
  | nil => simp [pushBlobs]
  | cons a rest ih =>
    obtain ⟨r, hr⟩ := h tr.length le_rfl (by simp only [List.length_cons]; omega)
    have ihr := ih (tr ++ [CallKind.blobCreate]) ?_
    · simp only [pushBlobs, hr, ihr]
      simp [List.replicate_succ]
    · intro i hi1 hi2
      apply h i
      · simp only [List.length_append, List.length_cons, List.length_nil] at hi1
        omega
      · simp only [List.length_append, List.length_cons, List.length_nil] at hi2 ⊢
        omega

/-- Any partial blob trace extends to a prefix of the full push sequence. -/
theorem blobPhase_prefix (files : List FileNode) (k : Nat)
    (hk : k ≤ (flattenForest files).length) :
    ([CallKind.refRead, CallKind.commitRead] ++ List.replicate k CallKind.blobCreate)
      <+: fullSequence files := by
  refine ⟨List.replicate ((flattenForest files).length - k) CallKind.blobCreate
    ++ [CallKind.treeCreate, CallKind.commitCreate, CallKind.refUpdate], ?_⟩
  simp only [fullSequence, List.append_assoc, List.cons_append, List.nil_append]
  rw [← List.append_assoc (List.replicate k CallKind.blobCreate), ← List.replicate_add,
    Nat.add_sub_cancel' hk]

/-- The trace of pushToGithub is always a prefix of the full expected call sequence. -/
theorem pushToGithub_trace_prefix (o : Oracle) (files : List FileNode) :
    (pushToGithub o files).1 <+: fullSequence files := by
  have hone : [CallKind.refRead] <+: fullSequence files :=
    ⟨[CallKind.commitRead] ++ List.replicate (flattenForest files).length CallKind.blobCreate
      ++ [CallKind.treeCreate, CallKind.commitCreate, CallKind.refUpdate], by
        simp [fullSequence]⟩
  have htwo : [CallKind.refRead, CallKind.commitRead] <+: fullSequence files :=
    ⟨List.replicate (flattenForest files).length CallKind.blobCreate
      ++ [CallKind.treeCreate, CallKind.commitCreate, CallKind.refUpdate], by
        simp [fullSequence]⟩
  rcases h0 : o 0 with e | r
  · have heq : (pushToGithub o files).1 = [CallKind.refRead] := by
      simp [pushToGithub, h0]
    rw [heq]; exact hone
  rcases r with ⟨rok, rsha⟩
  cases rok
  · have heq : (pushToGithub o files).1 = [CallKind.refRead] := by
      simp [pushToGithub, h0]
    rw [heq]; exact hone
  rcases h1 : o 1 with e1 | r1
  · have heq : (pushToGithub o files).1 = [CallKind.refRead, CallKind.commitRead] := by
      simp [pushToGithub, h0, h1]
    rw [heq]; exact htwo
  obtain ⟨k, hk, htr, hs⟩ := pushBlobs_partial o (flattenForest files)
    [CallKind.refRead, CallKind.commitRead]
  rcases hpb : pushBlobs o (flattenForest files) [CallKind.refRead, CallKind.commitRead]
    with ⟨tr, b⟩
  rw [hpb] at htr hs
  dsimp only at htr hs
  cases b
  · have heq : (pushToGithub o files).1 = tr := by
      simp [pushToGithub, h0, h1, hpb]
    rw [heq, htr]
    exact blobPhase_prefix files k hk
  have hkN : k = (flattenForest files).length := hs rfl
  rcases h3 : o tr.length with e3 | r3
  · have heq : (pushToGithub o files).1 = tr ++ [CallKind.treeCreate] := by
      simp [pushToGithub, h0, h1, hpb, h3]
    rw [heq, htr, hkN]
    exact ⟨[CallKind.commitCreate, CallKind.refUpdate], by simp [fullSequence]⟩
  rcases h4 : o (tr.length + 1) with e4 | r4
  · have heq : (pushToGithub o files).1 = tr ++ [CallKind.treeCreate, CallKind.commitCreate] := by
      simp [pushToGithub, h0, h1, hpb, h3, h4]
    rw [heq, htr, hkN]
    exact ⟨[CallKind.refUpdate], by simp [fullSequence]⟩
  rcases h5 : o (tr.length + 2) with e5 | r5
  · have heq : (pushToGithub o files).1
        = tr ++ [CallKind.treeCreate, CallKind.commitCreate, CallKind.refUpdate] := by
      simp [pushToGithub, h0, h1, hpb, h3, h4, h5]
    rw [heq, htr, hkN]
    exact ⟨[], by simp [fullSequence]⟩
  · have heq : (pushToGithub o files).1
        = tr ++ [CallKind.treeCreate, CallKind.commitCreate, CallKind.refUpdate] := by
      simp [pushToGithub, h0, h1, hpb, h3, h4, h5]
    rw [heq, htr, hkN]
    exact ⟨[], by simp [fullSequence]⟩

/-- When every fetch before tree-create resolves ok and the tree-create fetch rejects,
the push aborts right after issuing tree-create. -/
theorem pushToGithub_treeReject (o : Oracle) (files : List FileNode)
    (h1 : ∀ i, i < 2 + (flattenForest files).length → ∃ r, o i = Except.ok r ∧ r.ok = true)
    (h2 : o (2 + (flattenForest files).length) = Except.error ()) :
    pushToGithub o files
      = ([CallKind.refRead, CallKind.commitRead]
          ++ List.replicate (flattenForest files).length CallKind.blobCreate
          ++ [CallKind.treeCreate], false) := by
  obtain ⟨r0, hr0, hok0⟩ := h1 0 (by omega)
  obtain ⟨r1, hr1, -⟩ := h1 1 (by omega)
  have hblobs := pushBlobs_complete o (flattenForest files)
    [CallKind.refRead, CallKind.commitRead] ?_
  · have hlen : ([CallKind.refRead, CallKind.commitRead]
        ++ List.replicate (flattenForest files).length CallKind.blobCreate).length
        = 2 + (flattenForest files).length := by
      simp [List.length_append, List.length_replicate]
      omega
    simp only [pushToGithub, hr0, hok0, hr1, hblobs, hlen, h2]
    simp
  · intro i hi1 hi2
    simp only [List.length_append, List.length_cons, List.length_nil,
      List.length_replicate] at hi1 hi2
    obtain ⟨r, hr, -⟩ := h1 i (by omega)
    exact ⟨r, hr⟩

/-- C2 (amended): for every FileNode forest and every mocked hosting API, the fetch trace
of pushToGithub is a prefix of ref-read, commit-read, blob-create per File leaf,
tree-create, commit-create, ref-update — so the calls are issued in exactly that relative
order; and when every call before tree-create resolves ok and the tree-create fetch
rejects (throws), the push aborts with its trace ending at tree-create, never issuing
ref-update.  A tree-create that instead resolves with a non-ok HTTP response does not
abort the push (see the C2 counterexample): the source checks the HTTP ok flag only on
the ref-read step. -/
theorem C2_push_call_order (o : Oracle) (files : List FileNode) :
    (pushToGithub o files).1 <+: fullSequence files
  ∧ ((∀ i, i < 2 + (flattenForest files).length → ∃ r, o i = Except.ok r ∧ r.ok = true) →
      o (2 + (flattenForest files).length) = Except.error () →
      (pushToGithub o files).1
          = [CallKind.refRead, CallKind.commitRead]
            ++ List.replicate (flattenForest files).length CallKind.blobCreate
            ++ [CallKind.treeCreate]
        ∧ (pushToGithub o files).2 = false
        ∧ CallKind.refUpdate ∉ (pushToGithub o files).1) :=
  ⟨ pushToGithub_trace_prefix o files, fun ha hb => by
    have h := pushToGithub_treeReject o files ha hb
    refine ⟨by rw [h], by rw [h], ?_⟩
    rw [h]
    simp [List.mem_append, List.mem_replicate]⟩

/-- C2 amended, witnessed: pushing one file against a mock whose fourth fetch (the
tree-create call) rejects stops the trace at tree-create; ref-update is not issued. -/
theorem C2_push_call_order_witness :
    (pushToGithub RepoGen.treeRejectOracle [FileNode.file "a.txt" "hello"]).1
      = [CallKind.refRead, CallKind.commitRead, CallKind.blobCreate, CallKind.treeCreate]
  ∧ CallKind.refUpdate ∉ (pushToGithub RepoGen.treeRejectOracle [FileNode.file "a.txt" "hello"]).1 := by
  have hcalls : ∀ i, i < 2 + (flattenForest [FileNode.file "a.txt" "hello"]).length →
      ∃ r, RepoGen.treeRejectOracle i = Except.ok r ∧ r.ok = true := by
    intro i hi
    have hi3 : i < 3 := hi
    refine ⟨⟨true, "sha0"⟩, ?_, rfl⟩
    simp only [RepoGen.treeRejectOracle]
    rw [if_neg (by omega)]
  obtain ⟨htr, -, hnm⟩ :=
    (C2_push_call_order RepoGen.treeRejectOracle [FileNode.file "a.txt" "hello"]).2 hcalls rfl
  exact ⟨by rw [htr]; rfl, hnm⟩

/-- C2 counterexample: pushing one file against a mock where every fetch resolves but the
tree-create call resolves with ok = false — a failing tree-create step.  The push does
not abort: commit-create and ref-update are still issued and the push resolves, refuting
the claim that pushToGithub aborts before ref-update when tree-create fails. -/
theorem C2_counterexample :
    RepoGen.treeHttpFailOracle 3 = Except.ok ⟨false, ""⟩
  ∧ pushToGithub RepoGen.treeHttpFailOracle [FileNode.file "a.txt" "hello"]
      = ([CallKind.refRead, CallKind.commitRead, CallKind.blobCreate, CallKind.treeCreate,
          CallKind.commitCreate, CallKind.refUpdate], true) :=
  ⟨rfl, rfl⟩

end GithubService

end RepoGen
